import Mathlib

/-!
Verification development for the nft-scraper repository.

This file shallowly embeds the parts of the source that the examined
properties depend on:

* `src/src/nft_scout/models.py` — the `Chain` enum and `Chain.from_string`;
* `src/src/nft_scout/storage/memory.py` — the in-memory TTL cache adapter;
* `src/src/nft_scout/clients/helius.py` — the first-page total inference of
  `HeliusClient.get_collection_nfts` (direct-address RPC path);
* `src/web_server.py` — the counting pagination loop and the main scrape
  loop of the websocket endpoint (cursor walker, duplicate suppression,
  page-limit safety valve);
* `src/src/nft_scout/scraper.py` and `src/src/nft_scout/normalizer.py` —
  the multi-source statistics merge of `NFTScout.get_collection_stats`.

Python `None`-able values become `Option`; Python truthiness of numbers
and strings is made explicit (`0`, `0.0`, `""` and `None` are falsy);
float arithmetic is embedded over `Rat` (all the examined computations
are exact); dict-shaped provider payloads are embedded at the level of
the fields the source extracts from them.
-/

namespace NFTScraper

/-! ### models.py: Chain and Chain.from_string -/

/-- Supported blockchain networks (`Chain` enum, models.py lines 11-18). -/
inductive Chain where
  | ETHEREUM
  | POLYGON
  | ARBITRUM
  | OPTIMISM
  | BASE
  | SOLANA
  deriving DecidableEq, Repr

/-- Embedding of Python `str.lower()` (character-wise lowercasing; the
inputs of interest are ASCII). -/
def pyLower (s : String) : String :=
  String.mk (s.data.map Char.toLower)

/-- Embedding of Python `str.strip()`: drop leading and trailing
whitespace. -/
def pyStrip (s : String) : String :=
  String.mk
    (((s.data.dropWhile Char.isWhitespace).reverse.dropWhile
      Char.isWhitespace).reverse)

/-- The alias mapping of `Chain.from_string` (models.py lines 24-37): the
Python dict lookup with default `ETHEREUM` over pairwise-distinct keys,
written as the equivalent chain of equality tests. -/
def Chain.aliasLookup (t : String) : Chain :=
  if t = "eth" then .ETHEREUM
  else if t = "ethereum" then .ETHEREUM
  else if t = "polygon" then .POLYGON
  else if t = "matic" then .POLYGON
  else if t = "arbitrum" then .ARBITRUM
  else if t = "arb" then .ARBITRUM
  else if t = "optimism" then .OPTIMISM
  else if t = "op" then .OPTIMISM
  else if t = "base" then .BASE
  else if t = "solana" then .SOLANA
  else if t = "sol" then .SOLANA
  else .ETHEREUM

/-- Embedding of `Chain.from_string` (models.py lines 20-37): lowercase,
strip, then look the alias up with default `ETHEREUM`. -/
def Chain.from_string (s : String) : Chain :=
  Chain.aliasLookup (pyStrip (pyLower s))

/-! ### storage/memory.py: the in-memory TTL cache -/

/-- The in-memory storage adapter (memory.py lines 12-44).  The wrapped
`cachetools.TTLCache` is created once with `ttl=config.cache_ttl`
(lines 19-22) and every insertion into it expires after the TTL the cache
was constructed with; `cacheTtl` records that constructor argument and
`entries` the live `(key, value, expiry-time)` triples. -/
structure MemoryStorage (α : Type) where
  cacheTtl : Nat
  entries : List (String × α × Nat)

/-- Embedding of `MemoryStorage.set_cache` (memory.py lines 30-39).  The
source compares the `ttl` argument with `self.config.cache_ttl` but both
branches execute the same statement `self.cache[key] = value`, and the
`TTLCache` assigns the entry the expiry `now + cache_ttl` of the cache
object itself, so the requested `ttl` is reflected in the comparison
only. -/
def MemoryStorage.set_cache (st : MemoryStorage α) (now : Nat) (key : String)
    (value : α) (ttl : Nat) : MemoryStorage α :=
  if ttl ≠ st.cacheTtl then
    { st with entries := (key, value, now + st.cacheTtl) ::
        st.entries.filter (fun e => e.1 ≠ key) }
  else
    { st with entries := (key, value, now + st.cacheTtl) ::
        st.entries.filter (fun e => e.1 ≠ key) }

/-! ### clients/helius.py: first-page collection-total inference

Embedding of the total-inference block of `HeliusClient.get_collection_nfts`
on the direct-address RPC path (helius.py lines 240-298).  A fetched RPC
page is reduced to the three fields the block reads: the number of items
returned, the continuation cursor, and the `total` field of the response
(bound to `total_returned` in the source). -/

/-- One Helius RPC `getAssetsByGroup` response as consumed by the
total-inference block: `itemCount = len(items)`, `cursor = rpc cursor`,
`total = rpc_response.get("total", 0)`. -/
structure HeliusRpcPage where
  itemCount : Nat
  cursor : Option String
  total : Nat
  deriving DecidableEq, Repr

/-- Embedding of the `actual_total` computation (helius.py lines 253-274):
on a first request (no request cursor) with no response cursor and fewer
items than the limit the total is the item count; with a response cursor
it is unknown; otherwise it is the `total` field of the response; on any
later request it is unknown. -/
def heliusActualTotal (isFirstRequest : Bool) (limit : Nat)
    (p : HeliusRpcPage) : Option Nat :=
  if isFirstRequest then
    if p.cursor.isNone ∧ p.itemCount < limit then some p.itemCount
    else if p.cursor.isSome then none
    else some p.total
  else none

/-- Embedding of the storage block (helius.py lines 276-288): when the
client has no stored `_collection_total` yet, `actual_total` is stored
when it is not `None`, and otherwise the `total` field of the response is
stored whenever it is positive (the "fallback estimate" branch); an
existing stored total is kept. -/
def heliusStoreTotal (stored : Option Nat) (actual : Option Nat)
    (totalReturned : Nat) : Option Nat :=
  match stored with
  | some t => some t
  | none =>
    match actual with
    | some a => some a
    | none => if 0 < totalReturned then some totalReturned else none

/-- One fetch of the direct-address RPC path, restricted to its effect on
the stored collection total (`_collection_total` and `_last_total` are
assigned together in the source). -/
def heliusFetchStoredTotal (stored : Option Nat) (isFirstRequest : Bool)
    (limit : Nat) (p : HeliusRpcPage) : Option Nat :=
  heliusStoreTotal stored (heliusActualTotal isFirstRequest limit p) p.total

/-! ### web_server.py: the counting pagination loop

Embedding of the NFT-counting loop of the websocket endpoint
(web_server.py lines 870-973).  One response page is reduced to the list
of NFTs it carries and its continuation cursor (`count_response.cursor`;
the `getattr(count_response, "pageKey", None)` alternative on line 919 is
always `None` on a `CollectionNFTResponse` object and is absorbed into
the single `cursor` field).  The adapter is abstracted as the sequence of
responses the loop receives: `prov k` is the page returned by the
`(k+1)`-th fetch. -/

/-- One NFT as read by the counting loop: its `token_id` attribute and
the token id recovered by the `raw_metadata` probing of lines 936-944
(the empty string when nothing is recovered). -/
structure CountNft where
  token_id : String
  rawTokenId : String
  deriving DecidableEq, Repr

/-- One response page of the counting loop. -/
structure CountPage where
  nfts : List CountNft
  cursor : Option String
  deriving DecidableEq, Repr

/-- Embedding of the last-token extraction (web_server.py lines 928-946):
take the trimmed `token_id` of the last NFT of the page; if it is empty
or the string `"None"`, fall back to the trimmed id recovered from
`raw_metadata`; the result is used only when it is non-empty and not
`"None"`. -/
def extractLastTokenId (nfts : List CountNft) : Option String :=
  match nfts.getLast? with
  | none => none
  | some nft =>
    let t := pyStrip nft.token_id
    let t := if t = "" ∨ t = "None" then pyStrip nft.rawTokenId else t
    if t = "" ∨ t = "None" then none else some t

/-- Mutable state of the counting loop (web_server.py lines 871-876). -/
structure CountState where
  totalCounted : Nat
  pageCount : Nat
  consecutiveEmpty : Nat
  cursor : Option String
  deriving DecidableEq, Repr

/-- One iteration of the counting loop body (web_server.py lines 879-973)
applied to the fetched page `p`: accumulate the item count, bump the page
counter, track consecutive empty pages (two in a row stop the loop,
lines 906-910), then decide continuation: a response cursor continues
with it (lines 921-924); a cursorless full page continues with the last
token id as a synthetic cursor when one can be extracted, else continues
bare while more than one page remains below the limit (lines 925-962); a
cursorless partial page stops (lines 963-966).  Returns the new state
and whether the loop keeps running. -/
def countStep (pageSize maxPages : Nat) (p : CountPage) (s : CountState) :
    CountState × Bool :=
  let n := p.nfts.length
  let ce := if n = 0 then s.consecutiveEmpty + 1 else 0
  let s1 : CountState :=
    { totalCounted := s.totalCounted + n, pageCount := s.pageCount + 1,
      consecutiveEmpty := ce, cursor := s.cursor }
  if n = 0 ∧ 2 ≤ ce then (s1, false)
  else
    match p.cursor with
    | some c => ({ s1 with cursor := some c }, true)
    | none =>
      if n = pageSize then
        if p.nfts.length ≠ 0 then
          match extractLastTokenId p.nfts with
          | some tid => ({ s1 with cursor := some tid }, true)
          | none =>
            if s1.pageCount < maxPages - 1 then (s1, true) else (s1, false)
        else (s1, false)
      else (s1, false)

/-- The counting loop driver: `while page_count < max_count_pages`
(web_server.py line 878).  The fuel argument dominates the number of
iterations; every iteration increases `pageCount` by one, so fuel equal
to `maxPages` is never exhausted before the guard fails. -/
def countRun (prov : Nat → CountPage) (pageSize maxPages : Nat) :
    Nat → CountState → CountState
  | 0, s => s
  | fuel + 1, s =>
    if s.pageCount < maxPages then
      match countStep pageSize maxPages (prov s.pageCount) s with
      | (s1, true) => countRun prov pageSize maxPages fuel s1
      | (s1, false) => s1
    else s

/-- A full counting walk from the initial state of web_server.py
lines 871-876. -/
def countWalk (prov : Nat → CountPage) (pageSize maxPages : Nat) : CountState :=
  countRun prov pageSize maxPages maxPages ⟨0, 0, 0, none⟩

/-- After the counting loop the websocket endpoint adopts the counted sum
as the collection total whenever anything was counted (web_server.py
lines 975-977: `if total_counted > 0: collection_total = total_counted`). -/
def countAndSetTotal (prior : Option Nat) (prov : Nat → CountPage)
    (pageSize maxPages : Nat) : Option Nat :=
  let r := countWalk prov pageSize maxPages
  if 0 < r.totalCounted then some r.totalCounted else prior

/-! ### Python truthiness -/

/-- Python truthiness of an optional integer: `None` and `0` are falsy. -/
def truthyNat : Option Nat → Bool
  | some n => n != 0
  | none => false

/-- Python truthiness of an optional float (embedded as `Rat`): `None` and
`0.0` are falsy. -/
def truthyRat : Option Rat → Bool
  | some q => q != 0
  | none => false

/-- Python truthiness of an optional string: `None` and `""` are falsy. -/
def truthyStr : Option String → Bool
  | some s => s != ""
  | none => false

/-! ### models.py / scraper.py / normalizer.py: collection statistics

`CollectionStats` (models.py lines 128-182) restricted to the fields the
statistics merge of `NFTScout.get_collection_stats` reads or writes;
optional floats are embedded as `Option Rat`.  Field defaults mirror the
pydantic defaults. -/

/-- The `CollectionStats` record. -/
structure Stats where
  contract_address : String
  chain : Chain
  name : Option String := none
  symbol : Option String := none
  description : Option String := none
  total_supply : Option Nat := none
  total_owners : Option Nat := none
  floor_price : Option Rat := none
  floor_price_currency : String := "ETH"
  total_volume : Option Rat := none
  volume_24h : Option Rat := none
  volume_7d : Option Rat := none
  volume_30d : Option Rat := none
  sales_24h : Option Nat := none
  sales_7d : Option Nat := none
  sales_30d : Option Nat := none
  market_cap : Option Rat := none
  owners_percentage : Option Rat := none
  verified : Bool := false
  website : Option String := none
  twitter : Option String := none
  discord : Option String := none
  image_url : Option String := none
  deriving DecidableEq, Repr

/-- Embedding of the Magic Eden overlay merge of the Solana statistics
path (scraper.py lines 515-551).  Marketplace fields and the social and
media fields are overwritten whenever the overlay value is truthy
(lines 518-540); `total_supply` is assigned twice in the source
(lines 518-519 and 541-548) under the same condition, with the same
result.  Sales counts, 7-day and 30-day volumes, `market_cap` and
`owners_percentage` are not touched by this merge. -/
def mergeMagicEden (stats me : Stats) : Stats :=
  { stats with
    total_supply := if truthyNat me.total_supply then me.total_supply
      else stats.total_supply,
    floor_price := if truthyRat me.floor_price then me.floor_price
      else stats.floor_price,
    floor_price_currency := if me.floor_price_currency != "" then
      me.floor_price_currency else stats.floor_price_currency,
    total_volume := if truthyRat me.total_volume then me.total_volume
      else stats.total_volume,
    volume_24h := if truthyRat me.volume_24h then me.volume_24h
      else stats.volume_24h,
    total_owners := if truthyNat me.total_owners then me.total_owners
      else stats.total_owners,
    description := if truthyStr me.description then me.description
      else stats.description,
    image_url := if truthyStr me.image_url then me.image_url
      else stats.image_url,
    twitter := if truthyStr me.twitter then me.twitter else stats.twitter,
    discord := if truthyStr me.discord then me.discord else stats.discord,
    website := if truthyStr me.website then me.website else stats.website }

/-- Embedding of the Reservoir overlay merge of the EVM statistics path
(scraper.py lines 589-643).  Marketplace fields, `market_cap` and
`owners_percentage` are overwritten whenever the overlay value is truthy
(lines 599-622); description, image, twitter, discord and website are
gap-filled only (lines 624-633); the name is replaced when the overlay
has one and the base name is missing or equals the requested contract
address (lines 635-637); `total_supply` is overwritten when the overlay
has one (lines 639-641). -/
def mergeReservoir (contractAddress : String) (stats r : Stats) : Stats :=
  { stats with
    floor_price := if truthyRat r.floor_price then r.floor_price
      else stats.floor_price,
    floor_price_currency := if r.floor_price_currency != "" then
      r.floor_price_currency else stats.floor_price_currency,
    total_volume := if truthyRat r.total_volume then r.total_volume
      else stats.total_volume,
    volume_24h := if truthyRat r.volume_24h then r.volume_24h
      else stats.volume_24h,
    volume_7d := if truthyRat r.volume_7d then r.volume_7d
      else stats.volume_7d,
    volume_30d := if truthyRat r.volume_30d then r.volume_30d
      else stats.volume_30d,
    sales_24h := if truthyNat r.sales_24h then r.sales_24h
      else stats.sales_24h,
    sales_7d := if truthyNat r.sales_7d then r.sales_7d else stats.sales_7d,
    sales_30d := if truthyNat r.sales_30d then r.sales_30d
      else stats.sales_30d,
    total_owners := if truthyNat r.total_owners then r.total_owners
      else stats.total_owners,
    market_cap := if truthyRat r.market_cap then r.market_cap
      else stats.market_cap,
    owners_percentage := if truthyRat r.owners_percentage then
      r.owners_percentage else stats.owners_percentage,
    description := if !truthyStr stats.description && truthyStr r.description
      then r.description else stats.description,
    image_url := if !truthyStr stats.image_url && truthyStr r.image_url
      then r.image_url else stats.image_url,
    twitter := if !truthyStr stats.twitter && truthyStr r.twitter
      then r.twitter else stats.twitter,
    discord := if !truthyStr stats.discord && truthyStr r.discord
      then r.discord else stats.discord,
    website := if !truthyStr stats.website && truthyStr r.website
      then r.website else stats.website,
    name := if truthyStr r.name &&
        (!truthyStr stats.name || stats.name == some contractAddress)
      then r.name else stats.name,
    total_supply := if truthyNat r.total_supply then r.total_supply
      else stats.total_supply }

/-- Embedding of the Moralis gap-fill on the Solana path (scraper.py
lines 556-569): name, description and image are filled only when the
merged record lacks them. -/
def mergeMoralisSolana (stats m : Stats) : Stats :=
  { stats with
    name := if !truthyStr stats.name && truthyStr m.name then m.name
      else stats.name,
    description := if !truthyStr stats.description && truthyStr m.description
      then m.description else stats.description,
    image_url := if !truthyStr stats.image_url && truthyStr m.image_url
      then m.image_url else stats.image_url }

/-- Embedding of the Moralis gap-fill on the EVM path (scraper.py
lines 646-661): like the Solana gap-fill plus `total_supply`. -/
def mergeMoralisEvm (stats m : Stats) : Stats :=
  { mergeMoralisSolana stats m with
    total_supply := if !truthyNat stats.total_supply &&
        truthyNat m.total_supply then m.total_supply else stats.total_supply }

/-- Embedding of the QuickNode gap-fill (scraper.py lines 664-675): name
and description only. -/
def mergeQuicknode (stats q : Stats) : Stats :=
  { stats with
    name := if !truthyStr stats.name && truthyStr q.name then q.name
      else stats.name,
    description := if !truthyStr stats.description && truthyStr q.description
      then q.description else stats.description }

/-- The fields the Selenium scrape-based overlay may contribute
(scraper.py lines 677-695 read these keys from the scraped dict). -/
structure SeleniumFields where
  name : Option String := none
  description : Option String := none
  image_url : Option String := none
  floor_price : Option Rat := none
  total_supply : Option Nat := none
  total_volume : Option Rat := none
  total_owners : Option Nat := none
  deriving DecidableEq, Repr

/-- Embedding of the Selenium final gap-fill (scraper.py lines 677-695):
every listed field is filled only when still missing. -/
def mergeSelenium (stats : Stats) (sel : SeleniumFields) : Stats :=
  { stats with
    name := if !truthyStr stats.name && truthyStr sel.name then sel.name
      else stats.name,
    description := if !truthyStr stats.description &&
        truthyStr sel.description then sel.description else stats.description,
    image_url := if !truthyStr stats.image_url && truthyStr sel.image_url
      then sel.image_url else stats.image_url,
    floor_price := if !truthyRat stats.floor_price &&
        truthyRat sel.floor_price then sel.floor_price else stats.floor_price,
    total_supply := if !truthyNat stats.total_supply &&
        truthyNat sel.total_supply then sel.total_supply
      else stats.total_supply,
    total_volume := if !truthyRat stats.total_volume &&
        truthyRat sel.total_volume then sel.total_volume
      else stats.total_volume,
    total_owners := if !truthyNat stats.total_owners &&
        truthyNat sel.total_owners then sel.total_owners
      else stats.total_owners }

/-! ### normalizer.py: per-source collection normalizers -/

/-- Embedding of the derived `market_cap` of
`Normalizer.normalize_reservoir_collection` (normalizer.py
lines 534-537): computed from the floor price and total supply extracted
from the Reservoir payload itself; no provider-reported market cap is
ever read. -/
def reservoirMarketCap (floor_price : Option Rat) (total_supply : Option Nat) :
    Option Rat :=
  if truthyRat floor_price && truthyNat total_supply then
    some (floor_price.getD 0 * (total_supply.getD 0 : Nat))
  else none

/-- Embedding of the derived `owners_percentage` of
`Normalizer.normalize_reservoir_collection` (normalizer.py
lines 539-542): `(total_owners / total_supply) * 100` over the fields
extracted from the Reservoir payload itself. -/
def reservoirOwnersPercentage (total_owners total_supply : Option Nat) :
    Option Rat :=
  if truthyNat total_owners && truthyNat total_supply then
    some ((total_owners.getD 0 : Rat) / (total_supply.getD 0 : Nat) * 100)
  else none

/-- The values `normalize_reservoir_collection` extracts from the raw
Reservoir payload (normalizer.py lines 424-533); the dict probing of the
extraction is abstracted into the already-extracted fields.  There is no
market-cap or owners-percentage input: the source never reads those from
the provider. -/
structure ReservoirFields where
  name : Option String := none
  description : Option String := none
  image_url : Option String := none
  website : Option String := none
  twitter : Option String := none
  discord : Option String := none
  floor_price : Option Rat := none
  currency : String := "ETH"
  total_volume : Option Rat := none
  volume_24h : Option Rat := none
  volume_7d : Option Rat := none
  volume_30d : Option Rat := none
  sales_24h : Option Nat := none
  sales_7d : Option Nat := none
  sales_30d : Option Nat := none
  total_owners : Option Nat := none
  total_supply : Option Nat := none
  verified : Bool := false
  deriving DecidableEq, Repr

/-- Embedding of the record built by `normalize_reservoir_collection`
(normalizer.py lines 576-599): the derived fields are computed by
`reservoirMarketCap` and `reservoirOwnersPercentage`, the currency
defaults to `"ETH"` when no floor price was found. -/
def normalizeReservoirCollection (contractAddress : String) (chain : Chain)
    (f : ReservoirFields) : Stats :=
  { contract_address := contractAddress, chain := chain,
    name := f.name, description := f.description, image_url := f.image_url,
    total_supply := f.total_supply, total_owners := f.total_owners,
    floor_price := f.floor_price,
    floor_price_currency := if truthyRat f.floor_price then f.currency
      else "ETH",
    total_volume := f.total_volume, volume_24h := f.volume_24h,
    volume_7d := f.volume_7d, volume_30d := f.volume_30d,
    sales_24h := f.sales_24h, sales_7d := f.sales_7d,
    sales_30d := f.sales_30d,
    market_cap := reservoirMarketCap f.floor_price f.total_supply,
    owners_percentage :=
      reservoirOwnersPercentage f.total_owners f.total_supply,
    website := f.website, twitter := f.twitter, discord := f.discord,
    verified := f.verified }

/-- Embedding of `normalize_helius_collection` (normalizer.py
lines 248-258): identity and supply fields only; derived market fields
are never set. -/
def normalizeHeliusCollection (collection_address : String) (chain : Chain)
    (name description image : Option String) (totalSupply : Option Nat) :
    Stats :=
  { contract_address := collection_address, chain := chain, name := name,
    description := description, image_url := image,
    total_supply := totalSupply }

/-- Embedding of `normalize_alchemy_collection` (normalizer.py
lines 221-246): identity fields only. -/
def normalizeAlchemyCollection (address : String) (chain : Chain)
    (name symbol : Option String) (verified : Bool) : Stats :=
  { contract_address := address, chain := chain, name := name,
    symbol := symbol, verified := verified }

/-! ### scraper.py: the statistics merge pipelines -/

/-- The minimal fallback record built when no source produced a base
(scraper.py lines 697-703): identity fields default to the requested
collection identifier. -/
def minimalStats (contractAddress : String) (chain : Chain) : Stats :=
  { contract_address := contractAddress, chain := chain,
    name := some contractAddress }

/-- Embedding of the Solana merge of `NFTScout.get_collection_stats`
(scraper.py lines 496-569 and 677-703).  Sources that failed or returned
empty payloads are `none` (the result collector drops exceptions,
lines 474-483).  The Helius base and the normalized Magic Eden overlay
enter as already-normalized records; when there is no base the overlay
becomes the record (line 553); gap-fills apply only when a record exists;
with no record at all the minimal fallback is returned. -/
def getCollectionStatsSolana (contractAddress : String)
    (helius magiceden moralis : Option Stats)
    (selenium : Option SeleniumFields) : Stats :=
  let s1 : Option Stats :=
    match helius, magiceden with
    | some s, some me => some (mergeMagicEden s me)
    | none, some me => some me
    | s, none => s
  let s2 : Option Stats :=
    match s1, moralis with
    | some s, some m => some (mergeMoralisSolana s m)
    | s, _ => s
  let s3 : Option Stats :=
    match s2, selenium with
    | some s, some sel => some (mergeSelenium s sel)
    | s, _ => s
  s3.getD (minimalStats contractAddress Chain.SOLANA)

/-- Embedding of the EVM merge of `NFTScout.get_collection_stats`
(scraper.py lines 571-703).  The Alchemy base receives the requested
contract address as its name when it has none (lines 584-587); the
Reservoir overlay is normalized and merged only when a base exists
(lines 590-643); Moralis, QuickNode and Selenium gap-fill in that order;
with no base at all the minimal fallback is returned. -/
def getCollectionStatsEvm (contractAddress : String) (chain : Chain)
    (alchemy : Option Stats) (reservoir : Option ReservoirFields)
    (moralis quicknode : Option Stats) (selenium : Option SeleniumFields) :
    Stats :=
  let base : Option Stats := alchemy.map (fun a =>
    if truthyStr a.name then a else { a with name := some contractAddress })
  let s1 : Option Stats :=
    match base, reservoir with
    | some s, some rf => some (mergeReservoir contractAddress s
        (normalizeReservoirCollection contractAddress chain rf))
    | s, _ => s
  let s2 : Option Stats :=
    match s1, moralis with
    | some s, some m => some (mergeMoralisEvm s m)
    | s, _ => s
  let s3 : Option Stats :=
    match s2, quicknode with
    | some s, some q => some (mergeQuicknode s q)
    | s, _ => s
  let s4 : Option Stats :=
    match s3, selenium with
    | some s, some sel => some (mergeSelenium s sel)
    | s, _ => s
  s4.getD (minimalStats contractAddress chain)

/-! ### scraper.py: client selection and get_collection_nfts -/

/-- Which API clients were successfully initialized (scraper.py
lines 44-51 and 63-137: a client that failed to initialize stays
`None`). -/
structure Clients where
  alchemy : Bool
  moralis : Bool
  helius : Bool
  quicknode : Bool
  deriving DecidableEq, Repr

/-- The client kinds `_get_client_for_chain` can return. -/
inductive ClientKind where
  | alchemy
  | moralis
  | helius
  | quicknode
  deriving DecidableEq, Repr

/-- Embedding of `NFTScout._get_client_for_chain` (scraper.py
lines 140-151): Solana gets the Helius client (possibly `None`); EVM
chains prefer Alchemy, then Moralis, then QuickNode (possibly `None`). -/
def getClientForChain (c : Clients) : Chain → Option ClientKind
  | Chain.SOLANA => if c.helius then some ClientKind.helius else none
  | _ =>
    if c.alchemy then some ClientKind.alchemy
    else if c.moralis then some ClientKind.moralis
    else if c.quicknode then some ClientKind.quicknode
    else none

/-- One normalized NFT as consumed by the websocket walker: the two
fields of the duplicate-suppression key. -/
structure Nft where
  token_id : String
  contract_address : String
  deriving DecidableEq, Repr

/-- An adapter-level fetch result as read by
`NFTScout.get_collection_nfts` (scraper.py lines 298-373): the dict keys
the source probes, with `none` for an absent or `None`-valued key.  The
per-item normalization (lines 325-330) is absorbed into `nfts`.  The
error handling differs per client and is modelled by the
`...ClientFetch` functions below: Helius and Moralis catch their own
errors and return an empty dict-shaped result, while
`AlchemyClient.get_contract_nfts` logs and re-raises (alchemy.py
lines 149-151), with no handler in `_make_request` (lines 30-50) or in
the scraper. -/
structure RawFetch where
  nfts : List Nft := []
  pageKey : Option String := none
  nextToken : Option String := none
  page : Option String := none
  cursor : Option String := none
  has_more : Option Bool := none
  total : Option Nat := none
  totalCount : Option Nat := none
  totalSupply : Option Nat := none
  deriving DecidableEq, Repr

/-- Error handling of `HeliusClient.get_collection_nfts` (helius.py
lines 597-604): any exception of the underlying call is caught and the
empty result dict of those lines is returned. -/
def heliusClientFetch (raw : Except String RawFetch) : RawFetch :=
  match raw with
  | Except.ok r => r
  | Except.error _ => { nfts := [], page := none, totalCount := some 0 }

/-- Error handling of `MoralisClient.get_contract_nfts` (moralis.py
lines 163-165): any exception of the underlying call is caught and the
empty result dict of those lines is returned. -/
def moralisClientFetch (raw : Except String RawFetch) : RawFetch :=
  match raw with
  | Except.ok r => r
  | Except.error _ => { nfts := [], cursor := none }

/-- Error handling of `AlchemyClient.get_contract_nfts` (alchemy.py
lines 149-151): the exception is logged and re-raised, and nothing on
the path catches it. -/
def alchemyClientFetch (raw : Except String RawFetch) :
    Except String RawFetch :=
  raw

/-- The client dispatch of scraper.py lines 298-322 combined with each
adapter's own error handling: the outcome of the raw underlying API call
is `fetch k` (a parsed response or a raised exception), Helius and
Moralis absorb a failure into an empty result, Alchemy propagates it,
and a client that is none of the three (the QuickNode fallback of
lines 318-322) yields the literal empty response dict of line 322. -/
def dispatchFetch (k : ClientKind)
    (fetch : ClientKind → Except String RawFetch) :
    Except String RawFetch :=
  match k with
  | ClientKind.helius => Except.ok (heliusClientFetch (fetch k))
  | ClientKind.alchemy => alchemyClientFetch (fetch k)
  | ClientKind.moralis => Except.ok (moralisClientFetch (fetch k))
  | ClientKind.quicknode =>
    Except.ok { nfts := [], pageKey := none, page := none, cursor := none }

/-- Python `a or b` over optional strings ("" and `None` falsy). -/
def orStr (a b : Option String) : Option String :=
  if truthyStr a then a else b

/-- Python `a or b` over optional integers (`0` and `None` falsy). -/
def orNat (a b : Option Nat) : Option Nat :=
  if truthyNat a then a else b

/-- The `CollectionNFTResponse` model (models.py lines 252-260)
restricted to the fields the walker reads. -/
structure CollectionNFTResponse where
  contract_address : String
  chain : Chain
  total_count : Nat
  total : Option Nat
  nfts : List Nft
  cursor : Option String
  has_more : Bool
  deriving DecidableEq, Repr

/-- Embedding of `NFTScout.get_collection_nfts` (scraper.py
lines 240-382).  It raises the `ValueError` when no client is available
for the requested chain (lines 248-250), and it propagates an exception
of the Alchemy fetch (re-raised at alchemy.py lines 149-151; the fetch
calls at scraper.py lines 299-317 have no handler); Helius and Moralis
absorb their own failures (see `dispatchFetch`).  The cache reads are
commented out in the source (lines 252-296).  On a successful fetch, the
cursor is the first truthy of `pageKey`, `nextToken`, `page` and
`cursor` (line 340), `has_more` is taken from the response when present
and otherwise inferred from the cursor or a full page (lines 349-353),
and the total is the first truthy of `total`, `totalCount` and
`totalSupply`, falling back to the stored Helius totals on Solana
(lines 355-372). -/
def getCollectionNfts (c : Clients) (contractAddress : String) (chain : Chain)
    (pageSize : Nat) (fetchResult : ClientKind → Except String RawFetch)
    (heliusLast heliusColl : Option Nat) :
    Except String CollectionNFTResponse :=
  match getClientForChain c chain with
  | none => Except.error "No client available"
  | some k =>
    match dispatchFetch k fetchResult with
    | Except.error e => Except.error e
    | Except.ok r =>
      let cursor :=
        orStr r.pageKey (orStr r.nextToken (orStr r.page r.cursor))
      let has_more :=
        match r.has_more with
        | some b => b
        | none => cursor.isSome || decide (pageSize ≤ r.nfts.length)
      let ct0 := orNat r.total (orNat r.totalCount r.totalSupply)
      let ct :=
        if !truthyNat ct0 && decide (chain = Chain.SOLANA) &&
            decide (k = ClientKind.helius) then
          if truthyNat heliusLast then heliusLast
          else if truthyNat heliusColl then heliusColl
          else ct0
        else ct0
      Except.ok
        { contract_address := contractAddress, chain := chain,
          total_count := r.nfts.length, total := ct, nfts := r.nfts,
          cursor := cursor, has_more := has_more }

/-! ### web_server.py: duplicate suppression of the main scrape loop

Embedding of the per-NFT processing of the main scrape loop
(web_server.py lines 1235-1246): the key is the
`(token_id, contract_address)` pair; a seen key is skipped before the
accumulated count is incremented; a new key is recorded, emitted and
counted. -/

/-- The duplicate-suppression key of an NFT (web_server.py line 1237). -/
def nftKey (n : Nft) : String × String :=
  (n.token_id, n.contract_address)

/-- The walker state the per-NFT processing mutates: the seen-key set
(a list, membership-checked), the emitted NFTs, and `total_scraped`. -/
structure DedupAcc where
  seen : List (String × String)
  emitted : List Nft
  totalScraped : Nat
  deriving DecidableEq, Repr

/-- Processing of one NFT (web_server.py lines 1235-1246). -/
def processNft (a : DedupAcc) (nft : Nft) : DedupAcc :=
  if nftKey nft ∈ a.seen then a
  else
    { seen := nftKey nft :: a.seen, emitted := a.emitted ++ [nft],
      totalScraped := a.totalScraped + 1 }

/-- Processing of one page of NFTs, in order. -/
def processPage (a : DedupAcc) (nfts : List Nft) : DedupAcc :=
  nfts.foldl processNft a

/-- A whole walk over a fixed sequence of provider pages, from the
initial state of web_server.py lines 588-590. -/
def dedupWalk (pages : List (List Nft)) : DedupAcc :=
  pages.foldl processPage ⟨[], [], 0⟩

/-! ### web_server.py: the main scrape loop

Embedding of the main scrape loop of the websocket endpoint
(web_server.py lines 1059-1457).  Status, progress and warning messages
are reduced to the tracked fields they carry (`lastHasMore` for the
`has_more` flag of the most recent progress message, `errorEmitted` for
whether an error-typed message was sent); the alternative-chain probe for
an empty Ethereum first page (lines 1186-1212) is abstracted into the
`altFound` environment parameter; the adapter is abstracted as the
sequence `prov k` of responses the loop receives. -/

/-- Why the main scrape loop ended. -/
inductive ScrapeEnd where
  | limitReached
  | symbolError
  | noAltChain
  | solanaEmptyError
  | emptyFirstPage
  | emptyLaterPage
  | doneComplete
  deriving DecidableEq, Repr

/-- Mutable state of the main scrape loop (web_server.py lines 588-594
and the loop body).  `fetches` counts the `get_collection_nfts` calls
made (one per iteration). -/
structure ScrapeState where
  chain : Chain
  pageCount : Nat
  fetches : Nat
  cursor : Option String
  totalScraped : Nat
  seen : List (String × String)
  emitted : List Nft
  collectionTotal : Option Nat
  lastHasMore : Bool
  errorEmitted : Bool
  deriving DecidableEq, Repr

/-- The response cursor as read by the pagination check (web_server.py
lines 1352-1359): the `cursor` attribute under Python truthiness (an
empty string counts as absent); the `getattr` fallbacks on line 1359 are
always `None` on a `CollectionNFTResponse`. -/
def scrapeRespCursor (r : CollectionNFTResponse) : Option String :=
  match r.cursor with
  | some c => if c = "" then none else some c
  | none => none

/-! One iteration of the main scrape loop body (web_server.py
lines 1059-1457) applied to the fetched response `r`.  In order:

* collection-total inference on a still-unknown total (lines 1093-1159,
  with the stored Helius totals consulted on Solana, lines 1120-1145,
  possibly overriding the value just taken from the response);
* the empty-page branch (lines 1161-1225): on the first page a Solana
  marketplace symbol is a hard error, an Ethereum `0x` address probes the
  alternative chains and continues — with the empty response — when one
  matches, Solana is a hard error, anything else stops; a later empty
  page stops;
* per-NFT duplicate suppression and emission (lines 1235-1314) and the
  progress message carrying `response.has_more` (lines 1331-1339);
* the five-priority continuation decision (lines 1341-1403), the forced
  continuation of a 100-item page (lines 1417-1453; the first post-check
  branch on line 1419 repeats the priority-1 test and is unreachable
  there), and otherwise completion (lines 1454-1457).

Returns the new state and `none` to continue or the reason to stop. -/

/-- The non-empty-page tail of the loop body (web_server.py
lines 1235-1457): duplicate suppression and emission, the progress
message carrying `response.has_more`, then the continuation decision. -/
def scrapeProcess (r : CollectionNFTResponse) (s1 : ScrapeState) :
    ScrapeState × Option ScrapeEnd :=
  let acc := processPage ⟨s1.seen, s1.emitted, s1.totalScraped⟩ r.nfts
  let s2 : ScrapeState :=
    { s1 with
      seen := acc.seen
      emitted := acc.emitted
      totalScraped := acc.totalScraped
      lastHasMore := r.has_more }
  let rc := scrapeRespCursor r
  let n := r.nfts.length
  let belowTotal :=
    match s2.collectionTotal with
    | some t => decide (0 < t ∧ s2.totalScraped < t)
    | none => false
  let fullPage :=
    (decide (s2.chain = Chain.SOLANA) && decide (1000 ≤ n)) ||
    (decide (s2.chain ≠ Chain.SOLANA) && decide (100 ≤ n))
  if belowTotal then
    ({ s2 with cursor := orStr rc s2.cursor, pageCount := s2.pageCount + 1 },
      none)
  else if fullPage then
    ({ s2 with cursor := orStr rc s2.cursor, pageCount := s2.pageCount + 1 },
      none)
  else if r.has_more then
    ({ s2 with cursor := orStr rc s2.cursor, pageCount := s2.pageCount + 1 },
      none)
  else if rc.isSome then
    ({ s2 with cursor := rc, pageCount := s2.pageCount + 1 }, none)
  else if s2.cursor.isSome then
    ({ s2 with pageCount := s2.pageCount + 1 }, none)
  else if 100 ≤ n then
    ({ s2 with pageCount := s2.pageCount + 1 }, none)
  else (s2, some ScrapeEnd.doneComplete)

/-- The collection-total inference of web_server.py lines 1093-1159: on a
still-unknown total, take a truthy `response.total`, else a
`response.total_count` exceeding the page length; on Solana the stored
Helius totals override whatever was just taken. -/
def scrapeInferTotal (heliusLast heliusColl : Option Nat)
    (r : CollectionNFTResponse) (s : ScrapeState) : Option Nat :=
  if s.collectionTotal = none then
    let c0 := if truthyNat r.total then r.total
      else if r.nfts.length < r.total_count then some r.total_count
      else none
    if s.chain = Chain.SOLANA then
      if truthyNat heliusLast then heliusLast
      else if truthyNat heliusColl then heliusColl
      else c0
    else c0
  else s.collectionTotal

/-- One iteration of the main scrape loop body, as documented above:
collection-total inference, then the empty-page branch (whose alternative
chain success falls through into `scrapeProcess` with the chain
switched), else `scrapeProcess`. -/
def scrapeStep (addr : String) (altFound : Option Chain)
    (heliusLast heliusColl : Option Nat) (r : CollectionNFTResponse)
    (s : ScrapeState) : ScrapeState × Option ScrapeEnd :=
  let s0 := { s with
    collectionTotal := scrapeInferTotal heliusLast heliusColl r s }
  if r.nfts.length = 0 then
    if s0.pageCount = 0 then
      if s0.chain = Chain.SOLANA ∧ ¬ addr.startsWith "0x" ∧
          addr.length < 32 then
        ({ s0 with errorEmitted := true }, some ScrapeEnd.symbolError)
      else if s0.chain = Chain.ETHEREUM ∧ addr.startsWith "0x" then
        match altFound with
        | some alt => scrapeProcess r { s0 with chain := alt }
        | none => (s0, some ScrapeEnd.noAltChain)
      else if s0.chain = Chain.SOLANA then
        ({ s0 with errorEmitted := true }, some ScrapeEnd.solanaEmptyError)
      else (s0, some ScrapeEnd.emptyFirstPage)
    else (s0, some ScrapeEnd.emptyLaterPage)
  else scrapeProcess r s0

/-- The main scrape loop driver: `while page_count < max_pages`
(web_server.py line 1059).  Every continuing iteration increments
`pageCount`, so fuel equal to `maxPages` covers every run from
`pageCount = 0`; fuel exhaustion coincides with guard failure there. -/
def scrapeRun (addr : String) (altFound : Option Chain)
    (heliusLast heliusColl : Option Nat) (prov : Nat → CollectionNFTResponse)
    (maxPages : Nat) : Nat → ScrapeState → ScrapeState × ScrapeEnd
  | 0, s => (s, ScrapeEnd.limitReached)
  | fuel + 1, s =>
    if s.pageCount < maxPages then
      let s' := { s with fetches := s.fetches + 1 }
      match scrapeStep addr altFound heliusLast heliusColl (prov s.fetches)
          s' with
      | (s1, none) =>
        scrapeRun addr altFound heliusLast heliusColl prov maxPages fuel s1
      | (s1, some e) => (s1, e)
    else (s, ScrapeEnd.limitReached)

/-- A full main scrape walk from the initial state of web_server.py
lines 588-594 (`collectionTotal` carries whatever the pre-scrape phase
determined). -/
def scrapeWalk (addr : String) (chain : Chain) (altFound : Option Chain)
    (heliusLast heliusColl : Option Nat) (prov : Nat → CollectionNFTResponse)
    (maxPages : Nat) (initTotal : Option Nat) : ScrapeState × ScrapeEnd :=
  scrapeRun addr altFound heliusLast heliusColl prov maxPages maxPages
    { chain := chain, pageCount := 0, fetches := 0, cursor := none,
      totalScraped := 0, seen := [], emitted := [],
      collectionTotal := initTotal, lastHasMore := false,
      errorEmitted := false }

/-! ## Theorems -/

theorem truthyNat_iff (o : Option Nat) :
    truthyNat o = true ↔ ∃ n, o = some n ∧ n ≠ 0 := by
  cases o <;> simp [truthyNat]

theorem truthyRat_iff (o : Option Rat) :
    truthyRat o = true ↔ ∃ q, o = some q ∧ q ≠ 0 := by
  cases o <;> simp [truthyRat]

/-- C9: `Chain.from_string` is total: each recognized alias (lowercased
and trimmed) maps to its chain, and every other string maps to
`ETHEREUM`, so an unsupported chain name is silently treated as
Ethereum. -/
theorem C9_chain_from_string_total (s : String) :
    ((pyStrip (pyLower s) = "eth" ∨ pyStrip (pyLower s) = "ethereum") →
      Chain.from_string s = Chain.ETHEREUM) ∧
    ((pyStrip (pyLower s) = "polygon" ∨ pyStrip (pyLower s) = "matic") →
      Chain.from_string s = Chain.POLYGON) ∧
    ((pyStrip (pyLower s) = "arbitrum" ∨ pyStrip (pyLower s) = "arb") →
      Chain.from_string s = Chain.ARBITRUM) ∧
    ((pyStrip (pyLower s) = "optimism" ∨ pyStrip (pyLower s) = "op") →
      Chain.from_string s = Chain.OPTIMISM) ∧
    (pyStrip (pyLower s) = "base" → Chain.from_string s = Chain.BASE) ∧
    ((pyStrip (pyLower s) = "solana" ∨ pyStrip (pyLower s) = "sol") →
      Chain.from_string s = Chain.SOLANA) ∧
    (pyStrip (pyLower s) ∉ ["eth", "ethereum", "polygon", "matic", "arbitrum",
        "arb", "optimism", "op", "base", "solana", "sol"] →
      Chain.from_string s = Chain.ETHEREUM) := by
  simp only [Chain.from_string]
  generalize pyStrip (pyLower s) = t
  refine ⟨?_, ?_, ?_, ?_, ?_, ?_, ?_⟩
  · rintro (h | h) <;> subst h <;> decide
  · rintro (h | h) <;> subst h <;> decide
  · rintro (h | h) <;> subst h <;> decide
  · rintro (h | h) <;> subst h <;> decide
  · rintro h; subst h; decide
  · rintro (h | h) <;> subst h <;> decide
  · intro h
    simp only [List.mem_cons, List.not_mem_nil, or_false, not_or] at h
    obtain ⟨h1, h2, h3, h4, h5, h6, h7, h8, h9, h10, h11⟩ := h
    simp [Chain.aliasLookup, h1, h2, h3, h4, h5, h6, h7, h8, h9, h10, h11]

/-- C9 witness: a whitespace-and-case variant of a recognized alias and
an unrecognized name, with the hypotheses of the theorem discharged
concretely. -/
theorem C9_chain_from_string_total_witness :
    Chain.from_string " SOL " = Chain.SOLANA ∧
    Chain.from_string "dogecoin" = Chain.ETHEREUM :=
  ⟨(C9_chain_from_string_total " SOL ").2.2.2.2.2.1 (Or.inr (by decide)),
   (C9_chain_from_string_total "dogecoin").2.2.2.2.2.2 (by decide)⟩

/-- C10: `set_cache` stores every entry under the TTL the cache was
configured with; the `ttl` argument never changes the result, and the
stored entry expires at `now + cacheTtl`. -/
theorem C10_set_cache_ignores_ttl {α : Type} (st : MemoryStorage α)
    (now : Nat) (key : String) (value : α) (ttl : Nat) :
    st.set_cache now key value ttl = st.set_cache now key value st.cacheTtl ∧
    (st.set_cache now key value ttl).entries.head? =
      some (key, value, now + st.cacheTtl) := by
  constructor
  · unfold MemoryStorage.set_cache
    split <;> split <;> rfl
  · unfold MemoryStorage.set_cache
    split <;> rfl

/-- C1: evaluation of the Helius first-page total inference at the
failing input.  On a first fetch that returns a next-page cursor the
computed `actual_total` is unknown, as the claim requires, but the
storage block then stores the page-scoped `total` field of the response
as the collection total (the "fallback estimate" of helius.py
lines 281-288); the cursorless short first page stores the exact item
count, as the claim states. -/
theorem C1_helius_first_page_total_eval :
    heliusActualTotal true 1000 ⟨100, some "cursorToken", 100⟩ = none ∧
    heliusFetchStoredTotal none true 1000 ⟨100, some "cursorToken", 100⟩ =
      some 100 ∧
    heliusFetchStoredTotal none true 1000 ⟨7, none, 7⟩ = some 7 := by
  refine ⟨by decide, by decide, by decide⟩

/-- C8 counterexample: with the Alchemy client available for Ethereum, a
failing Alchemy fetch propagates out of `get_collection_nfts` as an
error (logged and re-raised at alchemy.py lines 149-151, no handler in
the scraper), refuting the claim that it raises only when no client is
available for the requested chain. -/
theorem C8_counterexample_alchemy_error_propagates :
    getClientForChain ⟨true, false, false, false⟩ Chain.ETHEREUM =
      some ClientKind.alchemy ∧
    getCollectionNfts ⟨true, false, false, false⟩ "0xc" Chain.ETHEREUM 100
      (fun _ => Except.error "HTTP 500") none none =
      Except.error "HTTP 500" := by
  exact ⟨rfl, rfl⟩

/-- C8 (amended): `get_collection_nfts` raises when no client is
available for the requested chain, and its errors are exactly that case
plus a failing Alchemy fetch, whose exception propagates; Helius,
Moralis and the QuickNode fallback absorb their own failures, so with
those clients it never raises.  The statistics merge never fails: with
every source absent it returns the minimal record whose identity fields
default to the requested collection identifier. -/
theorem C8_single_source_failures_contained (c : Clients) (addr : String)
    (chain : Chain) (ps : Nat) (fetch : ClientKind → Except String RawFetch)
    (hL hC : Option Nat) :
    (getClientForChain c chain = none →
      getCollectionNfts c addr chain ps fetch hL hC =
        Except.error "No client available") ∧
    (∀ e, getCollectionNfts c addr chain ps fetch hL hC = Except.error e ↔
      (getClientForChain c chain = none ∧ e = "No client available") ∨
      (getClientForChain c chain = some ClientKind.alchemy ∧
        fetch ClientKind.alchemy = Except.error e)) ∧
    getCollectionStatsSolana addr none none none none =
      minimalStats addr Chain.SOLANA ∧
    (∀ ch : Chain, getCollectionStatsEvm addr ch none none none none none =
      minimalStats addr ch) := by
  refine ⟨?_, ?_, rfl, fun ch => rfl⟩
  · intro h
    simp [getCollectionNfts, h]
  · intro e
    cases h : getClientForChain c chain with
    | none =>
      have hl : getCollectionNfts c addr chain ps fetch hL hC =
          Except.error "No client available" := by
        simp [getCollectionNfts, h]
      rw [hl]
      constructor
      · intro he
        injection he with he
        exact Or.inl ⟨rfl, he.symm⟩
      · rintro (⟨-, rfl⟩ | ⟨hbad, -⟩)
        · rfl
        · cases hbad
    | some k =>
      cases k with
      | alchemy =>
        cases hf : fetch ClientKind.alchemy with
        | error e2 =>
          have hl : getCollectionNfts c addr chain ps fetch hL hC =
              Except.error e2 := by
            simp [getCollectionNfts, h, dispatchFetch, alchemyClientFetch, hf]
          rw [hl]
          constructor
          · intro he
            injection he with he
            exact Or.inr ⟨rfl, by rw [he]⟩
          · rintro (⟨hbad, -⟩ | ⟨-, h2⟩)
            · cases hbad
            · injection h2 with h2
              rw [h2]
        | ok r =>
          have hl : ∀ e3, getCollectionNfts c addr chain ps fetch hL hC ≠
              Except.error e3 := by
            intro e3 hcontra
            simp only [getCollectionNfts, h, dispatchFetch,
              alchemyClientFetch, hf] at hcontra
            cases hcontra
          constructor
          · intro he
            exact absurd he (hl e)
          · rintro (⟨hbad, -⟩ | ⟨-, h2⟩)
            · cases hbad
            · cases h2
      | helius =>
        have hl : ∀ e3, getCollectionNfts c addr chain ps fetch hL hC ≠
            Except.error e3 := by
          intro e3 hcontra
          simp only [getCollectionNfts, h, dispatchFetch] at hcontra
          cases hcontra
        constructor
        · intro he
          exact absurd he (hl e)
        · rintro (⟨hbad, -⟩ | ⟨hbad, -⟩) <;> cases hbad
      | moralis =>
        have hl : ∀ e3, getCollectionNfts c addr chain ps fetch hL hC ≠
            Except.error e3 := by
          intro e3 hcontra
          simp only [getCollectionNfts, h, dispatchFetch] at hcontra
          cases hcontra
        constructor
        · intro he
          exact absurd he (hl e)
        · rintro (⟨hbad, -⟩ | ⟨hbad, -⟩) <;> cases hbad
      | quicknode =>
        have hl : ∀ e3, getCollectionNfts c addr chain ps fetch hL hC ≠
            Except.error e3 := by
          intro e3 hcontra
          simp only [getCollectionNfts, h, dispatchFetch] at hcontra
          cases hcontra
        constructor
        · intro he
          exact absurd he (hl e)
        · rintro (⟨hbad, -⟩ | ⟨hbad, -⟩) <;> cases hbad

/-- C8 witness: with no client configured the call errors with the
no-client message, and with only the Moralis client a failing underlying
fetch does not surface as an error (the adapter absorbs it). -/
theorem C8_single_source_failures_contained_witness :
    getCollectionNfts ⟨false, false, false, false⟩ "0xc" Chain.ETHEREUM 100
      (fun _ => Except.ok {}) none none =
      Except.error "No client available" ∧
    ¬ (getCollectionNfts ⟨false, true, false, false⟩ "0xc" Chain.ETHEREUM 100
      (fun _ => Except.error "HTTP 500") none none =
      Except.error "HTTP 500") := by
  constructor
  · exact (C8_single_source_failures_contained ⟨false, false, false, false⟩
      "0xc" Chain.ETHEREUM 100 (fun _ => Except.ok {}) none none).1
      (by decide)
  · intro h
    rcases ((C8_single_source_failures_contained ⟨false, true, false, false⟩
      "0xc" Chain.ETHEREUM 100 (fun _ => Except.error "HTTP 500") none
      none).2.1 "HTTP 500").mp h with ⟨h1, -⟩ | ⟨h1, -⟩
    · exact absurd h1 (by decide)
    · exact absurd h1 (by decide)

/-- C5 counterexample: in the Solana merge a non-zero sales count on the
marketplace overlay is not taken over, against the claim that every
marketplace-authoritative field (floor price, volume, sales, owners,
total supply) takes the non-zero overlay value. -/
theorem C5_counterexample_solana_sales_dropped :
    (({ contract_address := "addr", chain := Chain.SOLANA,
        sales_24h := some 5 } : Stats)).sales_24h = some 5 ∧
    (mergeMagicEden
      (normalizeHeliusCollection "addr" Chain.SOLANA none none none none)
      { contract_address := "addr", chain := Chain.SOLANA,
        sales_24h := some 5 }).sales_24h ≠ some 5 := by
  refine ⟨rfl, by decide⟩

/-- C5 (amended): in the EVM (Reservoir) merge every
marketplace-authoritative field with a truthy overlay value takes the
overlay value even when the base has one; in the Solana (Magic Eden)
merge the same holds for floor price, total and 24h volume, owners and
total supply, while sales counts and 7d and 30d volumes are not merged
there. -/
theorem C5_marketplace_overlay_priority (ca : String) (base r me : Stats) :
    (truthyRat r.floor_price →
      (mergeReservoir ca base r).floor_price = r.floor_price) ∧
    (truthyRat r.total_volume →
      (mergeReservoir ca base r).total_volume = r.total_volume) ∧
    (truthyRat r.volume_24h →
      (mergeReservoir ca base r).volume_24h = r.volume_24h) ∧
    (truthyRat r.volume_7d →
      (mergeReservoir ca base r).volume_7d = r.volume_7d) ∧
    (truthyRat r.volume_30d →
      (mergeReservoir ca base r).volume_30d = r.volume_30d) ∧
    (truthyNat r.sales_24h →
      (mergeReservoir ca base r).sales_24h = r.sales_24h) ∧
    (truthyNat r.sales_7d →
      (mergeReservoir ca base r).sales_7d = r.sales_7d) ∧
    (truthyNat r.sales_30d →
      (mergeReservoir ca base r).sales_30d = r.sales_30d) ∧
    (truthyNat r.total_owners →
      (mergeReservoir ca base r).total_owners = r.total_owners) ∧
    (truthyNat r.total_supply →
      (mergeReservoir ca base r).total_supply = r.total_supply) ∧
    (truthyRat me.floor_price →
      (mergeMagicEden base me).floor_price = me.floor_price) ∧
    (truthyRat me.total_volume →
      (mergeMagicEden base me).total_volume = me.total_volume) ∧
    (truthyRat me.volume_24h →
      (mergeMagicEden base me).volume_24h = me.volume_24h) ∧
    (truthyNat me.total_owners →
      (mergeMagicEden base me).total_owners = me.total_owners) ∧
    (truthyNat me.total_supply →
      (mergeMagicEden base me).total_supply = me.total_supply) := by
  refine ⟨?_, ?_, ?_, ?_, ?_, ?_, ?_, ?_, ?_, ?_, ?_, ?_, ?_, ?_, ?_⟩ <;>
    intro h <;>
    first
    | simp [mergeReservoir, h]
    | simp [mergeMagicEden, h]

/-- C5 witness: the example of the claim, on the Reservoir merge: a base
with `total_supply = 500` and no floor price merged with an overlay with
`total_supply = 480` and `floor_price = 1.2` yields 480 and 1.2. -/
theorem C5_marketplace_overlay_priority_witness :
    (mergeReservoir "0xc"
      { contract_address := "0xc", chain := Chain.ETHEREUM,
        total_supply := some 500 }
      { contract_address := "0xc", chain := Chain.ETHEREUM,
        total_supply := some 480,
        floor_price := some (6 / 5) }).floor_price = some (6 / 5) ∧
    (mergeReservoir "0xc"
      { contract_address := "0xc", chain := Chain.ETHEREUM,
        total_supply := some 500 }
      { contract_address := "0xc", chain := Chain.ETHEREUM,
        total_supply := some 480,
        floor_price := some (6 / 5) }).total_supply = some 480 := by
  have h := C5_marketplace_overlay_priority "0xc"
    { contract_address := "0xc", chain := Chain.ETHEREUM,
      total_supply := some 500 }
    { contract_address := "0xc", chain := Chain.ETHEREUM,
      total_supply := some 480, floor_price := some (6 / 5) }
    { contract_address := "0xc", chain := Chain.ETHEREUM,
      total_supply := some 480, floor_price := some (6 / 5) }
  exact ⟨(h.1 (by norm_num [truthyRat, bne_iff_ne])).trans rfl,
    (h.2.2.2.2.2.2.2.2.2.1 (by decide)).trans rfl⟩

/-- C6 counterexample: a Solana merge whose final merged record has
`floor_price = 2`, `total_supply = 1000` and `total_owners = 400` keeps
`market_cap = none` and `owners_percentage = none` instead of the
2000 and 40 the claim requires, because those fields are never recomputed
from the final merged values. -/
theorem C6_counterexample_market_cap_not_recomputed :
    (mergeMagicEden
      (normalizeHeliusCollection "addr" Chain.SOLANA none none none
        (some 1000))
      { contract_address := "addr", chain := Chain.SOLANA,
        floor_price := some 2,
        total_owners := some 400 }).floor_price = some 2 ∧
    (mergeMagicEden
      (normalizeHeliusCollection "addr" Chain.SOLANA none none none
        (some 1000))
      { contract_address := "addr", chain := Chain.SOLANA,
        floor_price := some 2,
        total_owners := some 400 }).total_supply = some 1000 ∧
    (mergeMagicEden
      (normalizeHeliusCollection "addr" Chain.SOLANA none none none
        (some 1000))
      { contract_address := "addr", chain := Chain.SOLANA,
        floor_price := some 2,
        total_owners := some 400 }).total_owners = some 400 ∧
    (mergeMagicEden
      (normalizeHeliusCollection "addr" Chain.SOLANA none none none
        (some 1000))
      { contract_address := "addr", chain := Chain.SOLANA,
        floor_price := some 2,
        total_owners := some 400 }).market_cap ≠ some 2000 ∧
    (mergeMagicEden
      (normalizeHeliusCollection "addr" Chain.SOLANA none none none
        (some 1000))
      { contract_address := "addr", chain := Chain.SOLANA,
        floor_price := some 2,
        total_owners := some 400 }).owners_percentage ≠ some 40 := by
  refine ⟨by decide, by decide, by decide, by decide, by decide⟩

/-- C6 (amended): `market_cap` and `owners_percentage` are computed in
the Reservoir normalizer from the floor price, total supply and owners
extracted from the Reservoir payload itself — a provider-reported market
cap is never read — and the EVM merge copies those computed values into
the merged record when non-zero.  They are not recomputed from the final
merged values, and the Solana merge never touches them. -/
theorem C6_derived_fields_from_reservoir_inputs (ca : String) (chain : Chain)
    (base : Stats) (f : ReservoirFields) (me : Stats) :
    (truthyRat f.floor_price → truthyNat f.total_supply →
      (mergeReservoir ca base
          (normalizeReservoirCollection ca chain f)).market_cap =
        some (f.floor_price.getD 0 * (f.total_supply.getD 0 : Nat))) ∧
    (truthyNat f.total_owners → truthyNat f.total_supply →
      (mergeReservoir ca base
          (normalizeReservoirCollection ca chain f)).owners_percentage =
        some ((f.total_owners.getD 0 : Rat) /
          (f.total_supply.getD 0 : Nat) * 100)) ∧
    (mergeMagicEden base me).market_cap = base.market_cap ∧
    (mergeMagicEden base me).owners_percentage = base.owners_percentage := by
  refine ⟨?_, ?_, rfl, rfl⟩
  · intro h1 h2
    obtain ⟨q, hq, hq0⟩ := (truthyRat_iff _).1 h1
    obtain ⟨n, hn, hn0⟩ := (truthyNat_iff _).1 h2
    have hne : q * (n : Rat) ≠ 0 :=
      mul_ne_zero hq0 (Nat.cast_ne_zero.mpr hn0)
    simp [mergeReservoir, normalizeReservoirCollection, reservoirMarketCap,
      truthyRat, truthyNat, hq, hn, hq0, hn0, hne]
  · intro h1 h2
    obtain ⟨m, hm, hm0⟩ := (truthyNat_iff _).1 h1
    obtain ⟨n, hn, hn0⟩ := (truthyNat_iff _).1 h2
    have hne : (m : Rat) / (n : Rat) * 100 ≠ 0 :=
      mul_ne_zero (div_ne_zero (Nat.cast_ne_zero.mpr hm0)
        (Nat.cast_ne_zero.mpr hn0)) (by norm_num)
    simp [mergeReservoir, normalizeReservoirCollection,
      reservoirOwnersPercentage, truthyRat, truthyNat, hm, hn, hm0, hn0, hne]

/-- C6 witness: concrete Reservoir inputs with floor price 2, supply 1000
and owners 400 produce `market_cap = 2000` and
`owners_percentage = 40` computed from those inputs. -/
theorem C6_derived_fields_witness :
    (mergeReservoir "0xc"
      { contract_address := "0xc", chain := Chain.ETHEREUM }
      (normalizeReservoirCollection "0xc" Chain.ETHEREUM
        { floor_price := some 2, total_supply := some 1000,
          total_owners := some 400 })).market_cap = some 2000 ∧
    (mergeReservoir "0xc"
      { contract_address := "0xc", chain := Chain.ETHEREUM }
      (normalizeReservoirCollection "0xc" Chain.ETHEREUM
        { floor_price := some 2, total_supply := some 1000,
          total_owners := some 400 })).owners_percentage = some 40 := by
  have h := C6_derived_fields_from_reservoir_inputs "0xc" Chain.ETHEREUM
    { contract_address := "0xc", chain := Chain.ETHEREUM }
    { floor_price := some 2, total_supply := some 1000,
      total_owners := some 400 }
    { contract_address := "0xc", chain := Chain.ETHEREUM }
  exact ⟨(h.1 (by norm_num [truthyRat, bne_iff_ne]) (by decide)).trans
      (by norm_num),
    (h.2.1 (by decide) (by decide)).trans (by norm_num)⟩

theorem processNft_inv (a : DedupAcc) (n : Nft)
    (h1 : (a.emitted.map nftKey).Nodup)
    (h2 : a.totalScraped = a.emitted.length)
    (h3 : ∀ k, k ∈ a.seen ↔ k ∈ a.emitted.map nftKey) :
    ((processNft a n).emitted.map nftKey).Nodup ∧
    (processNft a n).totalScraped = (processNft a n).emitted.length ∧
    (∀ k, k ∈ (processNft a n).seen ↔
      k ∈ (processNft a n).emitted.map nftKey) := by
  by_cases hm : nftKey n ∈ a.seen
  · simp only [processNft, if_pos hm]
    exact ⟨h1, h2, h3⟩
  · simp only [processNft, if_neg hm]
    refine ⟨?_, ?_, ?_⟩
    · simp only [List.map_append, List.map_cons, List.map_nil]
      rw [List.nodup_append_comm]
      simp only [List.singleton_append, List.nodup_cons]
      exact ⟨fun hk => hm ((h3 _).2 hk), h1⟩
    · simp [h2]
    · intro k
      simp only [List.mem_cons, List.map_append, List.map_cons, List.map_nil,
        List.mem_append, List.mem_singleton, h3 k]
      tauto

theorem foldl_processNft_inv (l : List Nft) (a : DedupAcc)
    (h1 : (a.emitted.map nftKey).Nodup)
    (h2 : a.totalScraped = a.emitted.length)
    (h3 : ∀ k, k ∈ a.seen ↔ k ∈ a.emitted.map nftKey) :
    (((l.foldl processNft a).emitted.map nftKey).Nodup) ∧
    (l.foldl processNft a).totalScraped =
      (l.foldl processNft a).emitted.length ∧
    (∀ k, k ∈ (l.foldl processNft a).seen ↔
      k ∈ (l.foldl processNft a).emitted.map nftKey) := by
  induction l generalizing a with
  | nil => exact ⟨h1, h2, h3⟩
  | cons n l ih =>
    obtain ⟨g1, g2, g3⟩ := processNft_inv a n h1 h2 h3
    simpa using ih (processNft a n) g1 g2 g3

theorem seen_subset_processNft (a : DedupAcc) (n : Nft) :
    a.seen ⊆ (processNft a n).seen := by
  unfold processNft
  split
  · exact fun x hx => hx
  · exact fun x hx => List.mem_cons_of_mem _ hx

theorem seen_subset_foldl (l : List Nft) (a : DedupAcc) :
    a.seen ⊆ (l.foldl processNft a).seen := by
  induction l generalizing a with
  | nil => exact fun x hx => hx
  | cons n l ih =>
    exact fun x hx =>
      ih (processNft a n) (seen_subset_processNft a n hx)

theorem mem_seen_foldl (l : List Nft) (a : DedupAcc) (n : Nft) (hn : n ∈ l) :
    nftKey n ∈ (l.foldl processNft a).seen := by
  induction l generalizing a with
  | nil => cases hn
  | cons m l ih =>
    rcases List.mem_cons.1 hn with h | h
    · subst h
      refine List.foldl_cons _ _ ▸ seen_subset_foldl l (processNft a n) ?_
      unfold processNft
      split
      · assumption
      · exact List.mem_cons_self _ _
    · exact ih (processNft a m) h

theorem dedupWalk_eq_flatten (pages : List (List Nft)) :
    dedupWalk pages = pages.flatten.foldl processNft ⟨[], [], 0⟩ := by
  rw [dedupWalk, List.foldl_flatten]
  rfl

/-- C4: in every walk over any fixed sequence of provider pages, the
emitted result set holds at most one item per `(token_id,
contract_address)` pair, the accumulated count equals the number of
emitted items (seen duplicates are excluded from both), and every
incoming pair appears in the output; the walk is a pure function of the
page sequence, so two runs over the same sequence agree. -/
theorem C4_dedup_unique_pairs (pages : List (List Nft)) :
    ((dedupWalk pages).emitted.map nftKey).Nodup ∧
    (dedupWalk pages).totalScraped = (dedupWalk pages).emitted.length ∧
    ∀ n ∈ pages.flatten, nftKey n ∈ (dedupWalk pages).emitted.map nftKey := by
  rw [dedupWalk_eq_flatten]
  obtain ⟨h1, h2, h3⟩ := foldl_processNft_inv pages.flatten ⟨[], [], 0⟩
    (by simp) (by simp) (by simp)
  exact ⟨h1, h2, fun n hn => (h3 _).1 (mem_seen_foldl _ _ _ hn)⟩

/-- C4 witness: a two-page sequence whose second page repeats the first
(an overlapping fallback page); the duplicated pair still appears exactly
once in the output. -/
theorem C4_dedup_unique_pairs_witness :
    nftKey ⟨"1", "c"⟩ ∈
      ((dedupWalk [[⟨"1", "c"⟩], [⟨"1", "c"⟩]]).emitted.map nftKey) :=
  (C4_dedup_unique_pairs [[⟨"1", "c"⟩], [⟨"1", "c"⟩]]).2.2 ⟨"1", "c"⟩
    (by decide)

theorem countStep_pageCount (pageSize maxPages : Nat) (p : CountPage)
    (s : CountState) :
    (countStep pageSize maxPages p s).1.pageCount = s.pageCount + 1 := by
  simp only [countStep]
  repeat' split
  all_goals rfl

theorem countRun_guard_step (prov : Nat → CountPage) (pageSize maxPages : Nat)
    (fuel : Nat) (s s1 : CountState) (h : s.pageCount < maxPages)
    (hstep : countStep pageSize maxPages (prov s.pageCount) s = (s1, true)) :
    countRun prov pageSize maxPages (fuel + 1) s =
      countRun prov pageSize maxPages fuel s1 := by
  rw [countRun, if_pos h, hstep]

theorem countRun_guard_stop (prov : Nat → CountPage) (pageSize maxPages : Nat)
    (fuel : Nat) (s s1 : CountState) (h : s.pageCount < maxPages)
    (hstep : countStep pageSize maxPages (prov s.pageCount) s = (s1, false)) :
    countRun prov pageSize maxPages (fuel + 1) s = s1 := by
  rw [countRun, if_pos h, hstep]

theorem countStep_full_cursorless (pageSize maxPages : Nat) (p : CountPage)
    (s : CountState) (tid : String) (hn : p.nfts.length = pageSize)
    (h0 : pageSize ≠ 0) (hc : p.cursor = none)
    (ht : extractLastTokenId p.nfts = some tid) :
    countStep pageSize maxPages p s =
      ({ totalCounted := s.totalCounted + pageSize,
         pageCount := s.pageCount + 1, consecutiveEmpty := 0,
         cursor := some tid }, true) := by
  unfold countStep
  simp [hn, hc, ht, h0]

theorem countStep_partial_cursorless (pageSize maxPages : Nat) (p : CountPage)
    (s : CountState) (hn : p.nfts.length < pageSize)
    (h0 : p.nfts.length ≠ 0) (hc : p.cursor = none) :
    countStep pageSize maxPages p s =
      ({ totalCounted := s.totalCounted + p.nfts.length,
         pageCount := s.pageCount + 1, consecutiveEmpty := 0,
         cursor := s.cursor }, false) := by
  unfold countStep
  simp [hc, h0, Nat.ne_of_lt hn, Nat.not_le.mpr hn]

theorem countStep_empty_with_cursor (pageSize maxPages : Nat) (p : CountPage)
    (s : CountState) (c : String) (hn : p.nfts = [])
    (hc : p.cursor = some c) (hce : s.consecutiveEmpty = 0) :
    countStep pageSize maxPages p s =
      ({ totalCounted := s.totalCounted, pageCount := s.pageCount + 1,
         consecutiveEmpty := 1, cursor := some c }, true) := by
  unfold countStep
  simp [hn, hc, hce]

theorem countStep_second_empty (pageSize maxPages : Nat) (p : CountPage)
    (s : CountState) (hn : p.nfts = []) (hce : s.consecutiveEmpty = 1) :
    countStep pageSize maxPages p s =
      ({ totalCounted := s.totalCounted, pageCount := s.pageCount + 1,
         consecutiveEmpty := 2, cursor := s.cursor }, false) := by
  unfold countStep
  simp [hn, hce]

theorem countStep_empty_cursorless (pageSize maxPages : Nat) (p : CountPage)
    (s : CountState) (hps : 0 < pageSize) (hn : p.nfts = [])
    (hc : p.cursor = none) (hce : s.consecutiveEmpty = 0) :
    countStep pageSize maxPages p s =
      ({ totalCounted := s.totalCounted, pageCount := s.pageCount + 1,
         consecutiveEmpty := 1, cursor := s.cursor }, false) := by
  unfold countStep
  simp [hn, hc, hce, Nat.ne_of_lt hps, hps]

/-- C2: against a provider sequence whose first two responses carry
exactly `pageSize` items with no cursor (with an extractable last token
id) and whose third carries `pageSize - 1` items with no cursor, the
counting walk fetches exactly 3 pages — continuing past the cursorless
full pages with the last token id as a synthetic cursor — and counts
`2*pageSize + (pageSize - 1)` items. -/
theorem C2_full_page_synthetic_cursor (prov : Nat → CountPage)
    (pageSize maxPages : Nat) (hps : 2 ≤ pageSize) (hmp : 3 ≤ maxPages)
    (t0 t1 : String)
    (h0n : (prov 0).nfts.length = pageSize) (h0c : (prov 0).cursor = none)
    (h0t : extractLastTokenId (prov 0).nfts = some t0)
    (h1n : (prov 1).nfts.length = pageSize) (h1c : (prov 1).cursor = none)
    (h1t : extractLastTokenId (prov 1).nfts = some t1)
    (h2n : (prov 2).nfts.length = pageSize - 1)
    (h2c : (prov 2).cursor = none) :
    (countWalk prov pageSize maxPages).pageCount = 3 ∧
    (countWalk prov pageSize maxPages).totalCounted =
      2 * pageSize + (pageSize - 1) := by
  have hp0 : pageSize ≠ 0 := by omega
  have h2z : (prov 2).nfts.length ≠ 0 := by omega
  have h2lt : (prov 2).nfts.length < pageSize := by omega
  obtain ⟨m, rfl⟩ : ∃ m, maxPages = m + 3 := ⟨maxPages - 3, by omega⟩
  have run :
      countRun prov pageSize (m + 3) (m + 3) ⟨0, 0, 0, none⟩ =
        ⟨0 + pageSize + pageSize + (prov 2).nfts.length, 3, 0, some t1⟩ := by
    calc countRun prov pageSize (m + 3) ((m + 2) + 1) ⟨0, 0, 0, none⟩
        = countRun prov pageSize (m + 3) (m + 2)
            ⟨0 + pageSize, 0 + 1, 0, some t0⟩ :=
          countRun_guard_step _ _ _ _ _ _ (by show 0 < m + 3; omega)
            (countStep_full_cursorless _ _ _ _ t0 h0n hp0 h0c h0t)
      _ = countRun prov pageSize (m + 3) (m + 1)
            ⟨0 + pageSize + pageSize, 0 + 1 + 1, 0, some t1⟩ :=
          countRun_guard_step _ _ _ _ _ _ (by show 1 < m + 3; omega)
            (countStep_full_cursorless _ _ _ _ t1 h1n hp0 h1c h1t)
      _ = ⟨0 + pageSize + pageSize + (prov 2).nfts.length, 3, 0, some t1⟩ :=
          countRun_guard_stop _ _ _ _ _ _ (by show 2 < m + 3; omega)
            (countStep_partial_cursorless _ _ _ _ h2lt h2z h2c)
  rw [countWalk, run]
  exact ⟨rfl, by show 0 + pageSize + pageSize + (prov 2).nfts.length =
    2 * pageSize + (pageSize - 1); omega⟩

/-- C2 witness: page size 2, page limit 3, two full cursorless pages with
token ids then a one-item page; the walk fetches 3 pages and counts 5. -/
theorem C2_full_page_synthetic_cursor_witness :
    (countWalk
      (fun k => match k with
        | 0 => ⟨[⟨"1", ""⟩, ⟨"2", ""⟩], none⟩
        | 1 => ⟨[⟨"3", ""⟩, ⟨"4", ""⟩], none⟩
        | _ => ⟨[⟨"5", ""⟩], none⟩)
      2 3).pageCount = 3 ∧
    (countWalk
      (fun k => match k with
        | 0 => ⟨[⟨"1", ""⟩, ⟨"2", ""⟩], none⟩
        | 1 => ⟨[⟨"3", ""⟩, ⟨"4", ""⟩], none⟩
        | _ => ⟨[⟨"5", ""⟩], none⟩)
      2 3).totalCounted = 2 * 2 + (2 - 1) :=
  C2_full_page_synthetic_cursor _ 2 3 (by omega) (by omega) "2" "4"
    (by decide) (by decide) (by decide) (by decide) (by decide) (by decide)
    (by decide) (by decide)

/-- C3 counterexample: a provider whose first response is an empty page
with no cursor; the counting walk stops after that single page (one
fetch), so a single empty page is not retried before being treated as
terminal and the walk does not wait for two consecutive empty pages. -/
theorem C3_counterexample_single_empty_not_retried :
    (countWalk (fun _ => ⟨[], none⟩) 100 200).pageCount = 1 ∧
    ¬ 2 ≤ (countWalk (fun _ => ⟨[], none⟩) 100 200).pageCount := by
  refine ⟨by decide, by decide⟩

/-- C3 (amended): an empty page that arrives with a next-page cursor is
retried, and the walk stops after two consecutive empty pages; an empty
page without a cursor ends the walk immediately (handled by the
partial-page rule), with no retry. -/
theorem C3_empty_page_handling (prov : Nat → CountPage)
    (pageSize maxPages : Nat) (hps : 0 < pageSize) (hmp : 2 ≤ maxPages) :
    ((prov 0).nfts = [] → ∀ c, (prov 0).cursor = some c →
      (prov 1).nfts = [] →
      (countWalk prov pageSize maxPages).pageCount = 2) ∧
    ((prov 0).nfts = [] → (prov 0).cursor = none →
      (countWalk prov pageSize maxPages).pageCount = 1) := by
  obtain ⟨m, rfl⟩ : ∃ m, maxPages = m + 2 := ⟨maxPages - 2, by omega⟩
  constructor
  · intro h0n c h0c h1n
    have run :
        countRun prov pageSize (m + 2) (m + 2) ⟨0, 0, 0, none⟩ =
          ⟨0, 2, 2, some c⟩ := by
      calc countRun prov pageSize (m + 2) ((m + 1) + 1) ⟨0, 0, 0, none⟩
          = countRun prov pageSize (m + 2) (m + 1) ⟨0, 0 + 1, 1, some c⟩ :=
            countRun_guard_step _ _ _ _ _ _ (by show 0 < m + 2; omega)
              (countStep_empty_with_cursor _ _ _ _ c h0n h0c rfl)
        _ = ⟨0, 2, 2, some c⟩ :=
            countRun_guard_stop _ _ _ _ _ _ (by show 1 < m + 2; omega)
              (countStep_second_empty _ _ _ _ h1n rfl)
    rw [countWalk, run]
  · intro h0n h0c
    have run :
        countRun prov pageSize (m + 2) (m + 2) ⟨0, 0, 0, none⟩ =
          ⟨0, 1, 1, none⟩ :=
      countRun_guard_stop _ _ _ _ _ _ (by show 0 < m + 2; omega)
        (countStep_empty_cursorless _ _ _ _ hps h0n h0c rfl)
    rw [countWalk, run]

/-- C3 witness: an empty page with a cursor followed by an empty page
stops the walk after exactly two fetches. -/
theorem C3_empty_page_handling_witness :
    (countWalk
      (fun k => match k with
        | 0 => ⟨[], some "c"⟩
        | _ => ⟨[], none⟩)
      100 200).pageCount = 2 :=
  (C3_empty_page_handling _ 100 200 (by omega) (by omega)).1 (by decide) "c"
    (by decide) (by decide)

theorem countRun_pageCount_le (prov : Nat → CountPage)
    (pageSize maxPages : Nat) :
    ∀ fuel (s : CountState), s.pageCount ≤ maxPages →
      (countRun prov pageSize maxPages fuel s).pageCount ≤ maxPages
  | 0, s, h => h
  | fuel + 1, s, h => by
    rw [countRun]
    split
    · rename_i hlt
      rcases hstep : countStep pageSize maxPages (prov s.pageCount) s
        with ⟨s1, b⟩
      have hpc : s1.pageCount = s.pageCount + 1 := by
        have h2 := countStep_pageCount pageSize maxPages (prov s.pageCount) s
        rw [hstep] at h2
        exact h2
      cases b
      · simp only [hstep]
        omega
      · simp only [hstep]
        exact countRun_pageCount_le prov pageSize maxPages fuel s1 (by omega)
    · exact h

theorem scrapeProcess_fetches (r : CollectionNFTResponse)
    (s : ScrapeState) :
    (scrapeProcess r s).1.fetches = s.fetches := by
  simp only [scrapeProcess]
  repeat' split
  all_goals rfl

theorem scrapeProcess_pageCount_of_continue (r : CollectionNFTResponse)
    (s : ScrapeState) (s1 : ScrapeState)
    (h : scrapeProcess r s = (s1, none)) :
    s1.pageCount = s.pageCount + 1 := by
  simp only [scrapeProcess] at h
  repeat' split at h
  all_goals injection h with h1 h2
  all_goals first
    | (subst h1; rfl)
    | cases h2

theorem scrapeStep_fetches (addr : String) (altFound : Option Chain)
    (hL hC : Option Nat) (r : CollectionNFTResponse) (s : ScrapeState) :
    (scrapeStep addr altFound hL hC r s).1.fetches = s.fetches := by
  simp only [scrapeStep]
  repeat' split
  all_goals first
    | rfl
    | exact scrapeProcess_fetches r _

theorem scrapeStep_pageCount_of_continue (addr : String)
    (altFound : Option Chain) (hL hC : Option Nat)
    (r : CollectionNFTResponse) (s : ScrapeState) (s1 : ScrapeState)
    (h : scrapeStep addr altFound hL hC r s = (s1, none)) :
    s1.pageCount = s.pageCount + 1 := by
  simp only [scrapeStep] at h
  repeat' split at h
  all_goals first
    | (have h3 := scrapeProcess_pageCount_of_continue r _ s1 h; exact h3)
    | (injection h with h1 h2; cases h2)

theorem scrapeRun_fetches_le (addr : String) (altF : Option Chain)
    (hL hC : Option Nat) (sprov : Nat → CollectionNFTResponse) (mp : Nat) :
    ∀ fuel (s : ScrapeState), s.fetches ≤ s.pageCount → s.pageCount ≤ mp →
      (scrapeRun addr altF hL hC sprov mp fuel s).1.fetches ≤ mp
  | 0, s, h1, h2 => by
    rw [scrapeRun]
    exact le_trans h1 h2
  | fuel + 1, s, h1, h2 => by
    simp only [scrapeRun]
    split
    · rename_i hlt
      rcases hstep : scrapeStep addr altF hL hC (sprov s.fetches)
        { s with fetches := s.fetches + 1 } with ⟨s1, e⟩
      have hfet : s1.fetches = s.fetches + 1 := by
        have h3 := scrapeStep_fetches addr altF hL hC (sprov s.fetches)
          { s with fetches := s.fetches + 1 }
        rw [hstep] at h3
        exact h3
      cases e with
      | none =>
        simp only [hstep]
        have hpc : s1.pageCount = s.pageCount + 1 :=
          scrapeStep_pageCount_of_continue addr altF hL hC (sprov s.fetches)
            { s with fetches := s.fetches + 1 } s1 hstep
        exact scrapeRun_fetches_le addr altF hL hC sprov mp fuel s1
          (by omega) (by omega)
      | some e =>
        simp only [hstep]
        show s1.fetches ≤ mp
        omega
    · exact le_trans h1 h2

theorem scrapeStep_fullpage (addr : String) (altFound : Option Chain)
    (hL hC : Option Nat) (r : CollectionNFTResponse) (s : ScrapeState)
    (hch : s.chain = Chain.ETHEREUM) (hct : s.collectionTotal = none)
    (hn : 100 ≤ r.nfts.length) (htot : r.total = none)
    (htc : r.total_count ≤ r.nfts.length) :
    (scrapeStep addr altFound hL hC r s).2 = none ∧
    (scrapeStep addr altFound hL hC r s).1.pageCount = s.pageCount + 1 ∧
    (scrapeStep addr altFound hL hC r s).1.collectionTotal = none ∧
    (scrapeStep addr altFound hL hC r s).1.errorEmitted = s.errorEmitted ∧
    (scrapeStep addr altFound hL hC r s).1.chain = s.chain ∧
    (scrapeStep addr altFound hL hC r s).1.lastHasMore = r.has_more := by
  have h0 : r.nfts.length ≠ 0 := by omega
  have h1 : ¬ r.nfts.length < r.total_count := by omega
  simp only [scrapeStep, scrapeInferTotal, hct, htot, hch]
  simp [scrapeProcess, truthyNat, h0, h1, hn]

theorem scrapeRun_infinite (addr : String) (altF : Option Chain)
    (hL hC : Option Nat) (sprov : Nat → CollectionNFTResponse) (mp : Nat)
    (hn : ∀ k, 100 ≤ (sprov k).nfts.length)
    (htot : ∀ k, (sprov k).total = none)
    (htc : ∀ k, (sprov k).total_count ≤ (sprov k).nfts.length)
    (hhm : ∀ k, (sprov k).has_more = true) :
    ∀ fuel (s : ScrapeState), s.chain = Chain.ETHEREUM →
      s.collectionTotal = none → s.errorEmitted = false →
      fuel + s.pageCount = mp → s.fetches = s.pageCount →
      (scrapeRun addr altF hL hC sprov mp fuel s).2 =
        ScrapeEnd.limitReached ∧
      (scrapeRun addr altF hL hC sprov mp fuel s).1.pageCount = mp ∧
      (scrapeRun addr altF hL hC sprov mp fuel s).1.fetches = mp ∧
      (scrapeRun addr altF hL hC sprov mp fuel s).1.collectionTotal = none ∧
      (scrapeRun addr altF hL hC sprov mp fuel s).1.errorEmitted = false ∧
      ((0 < fuel ∨ s.lastHasMore = true) →
        (scrapeRun addr altF hL hC sprov mp fuel s).1.lastHasMore = true)
  | 0, s, hch, hct, herr, hfuel, hf => by
    rw [scrapeRun]
    refine ⟨rfl, by show s.pageCount = mp; omega,
      by show s.fetches = mp; omega, hct, herr, ?_⟩
    rintro (h0 | hlast)
    · omega
    · exact hlast
  | fuel + 1, s, hch, hct, herr, hfuel, hf => by
    have hlt : s.pageCount < mp := by omega
    have hbundle := scrapeStep_fullpage addr altF hL hC (sprov s.fetches)
      { s with fetches := s.fetches + 1 } hch hct (hn s.fetches)
      (htot s.fetches) (htc s.fetches)
    rcases hstep : scrapeStep addr altF hL hC (sprov s.fetches)
      { s with fetches := s.fetches + 1 } with ⟨s1, e⟩
    rw [hstep] at hbundle
    obtain ⟨he, hpc, hctot, herr1, hch1, hlast1⟩ := hbundle
    have he' : e = none := he
    subst he'
    have hpc' : s1.pageCount = s.pageCount + 1 := hpc
    have herr' : s1.errorEmitted = false := by
      rw [herr1]; exact herr
    have hch' : s1.chain = Chain.ETHEREUM := by
      rw [hch1]; exact hch
    have hfet : s1.fetches = s.fetches + 1 := by
      have h3 := scrapeStep_fetches addr altF hL hC (sprov s.fetches)
        { s with fetches := s.fetches + 1 }
      rw [hstep] at h3
      exact h3
    have ih := scrapeRun_infinite addr altF hL hC sprov mp hn htot htc hhm
      fuel s1 hch' hctot herr' (by omega) (by omega)
    simp only [scrapeRun, if_pos hlt, hstep]
    refine ⟨ih.1, ih.2.1, ih.2.2.1, ih.2.2.2.1, ih.2.2.2.2.1, fun _ => ?_⟩
    exact ih.2.2.2.2.2 (Or.inr ((hlast1.trans (hhm s.fetches))))

/-- C7 counterexample: a provider that always returns a full page with a
cursor makes the counting walk hit its page limit (3 of 3 pages here),
after which the partial count is stored as the collection total
(`some 6`) rather than the total staying unknown as the claim requires
of a limit-hit walk. -/
theorem C7_counterexample_count_limit_stores_partial_total :
    (countWalk (fun _ => ⟨[⟨"1", ""⟩, ⟨"2", ""⟩], some "c"⟩) 2 3).pageCount
      = 3 ∧
    countAndSetTotal none (fun _ => ⟨[⟨"1", ""⟩, ⟨"2", ""⟩], some "c"⟩) 2 3
      = some 6 ∧
    countAndSetTotal none (fun _ => ⟨[⟨"1", ""⟩, ⟨"2", ""⟩], some "c"⟩) 2 3
      ≠ none := by
  refine ⟨by decide, by decide, by decide⟩

/-- C7 (amended): both walks stop after at most the configured maximum
number of page fetches against any provider; in the main scrape loop an
always-full-page-with-cursor provider ends the walk at the page limit as
`limitReached` with no error message emitted, the collection total still
unknown and the last reported `has_more` true (the recoverable partial
result of the claim); the counting walk, however, stores the partial
count as the collection total when its limit is hit (the counterexample
above). -/
theorem C7_safety_valve_bounds (prov : Nat → CountPage)
    (pageSize maxPages : Nat) (addr : String) (altF : Option Chain)
    (hL hC : Option Nat) (sprov : Nat → CollectionNFTResponse)
    (maxPages2 : Nat) (initTotal : Option Nat) (chain : Chain) :
    (countWalk prov pageSize maxPages).pageCount ≤ maxPages ∧
    (scrapeWalk addr chain altF hL hC sprov maxPages2 initTotal).1.fetches ≤
      maxPages2 ∧
    (chain = Chain.ETHEREUM → initTotal = none → 1 ≤ maxPages2 →
      (∀ k, 100 ≤ (sprov k).nfts.length) → (∀ k, (sprov k).total = none) →
      (∀ k, (sprov k).total_count ≤ (sprov k).nfts.length) →
      (∀ k, (sprov k).has_more = true) →
      (scrapeWalk addr chain altF hL hC sprov maxPages2 initTotal).2 =
        ScrapeEnd.limitReached ∧
      (scrapeWalk addr chain altF hL hC sprov maxPages2
        initTotal).1.pageCount = maxPages2 ∧
      (scrapeWalk addr chain altF hL hC sprov maxPages2
        initTotal).1.collectionTotal = none ∧
      (scrapeWalk addr chain altF hL hC sprov maxPages2
        initTotal).1.lastHasMore = true ∧
      (scrapeWalk addr chain altF hL hC sprov maxPages2
        initTotal).1.errorEmitted = false) := by
  refine ⟨?_, ?_, ?_⟩
  · exact countRun_pageCount_le prov pageSize maxPages maxPages _
      (by show 0 ≤ maxPages; omega)
  · exact scrapeRun_fetches_le addr altF hL hC sprov maxPages2 maxPages2 _
      (by show 0 ≤ 0; omega) (by show 0 ≤ maxPages2; omega)
  · intro hchain hinit hmp hn htot htc hhm
    subst hchain
    subst hinit
    have h := scrapeRun_infinite addr altF hL hC sprov maxPages2 hn htot htc
      hhm maxPages2
      { chain := Chain.ETHEREUM, pageCount := 0, fetches := 0, cursor := none,
        totalScraped := 0, seen := [], emitted := [], collectionTotal := none,
        lastHasMore := false, errorEmitted := false }
      rfl rfl rfl (by show maxPages2 + 0 = maxPages2; omega) rfl
    exact ⟨h.1, h.2.1, h.2.2.2.1, h.2.2.2.2.2 (Or.inl (by omega)),
      h.2.2.2.2.1⟩

/-- C7 witness: page limit 1 against a provider of full 100-item pages
with cursor and `has_more`; the walk ends at the limit with the total
unknown, `has_more` true and no error. -/
theorem C7_safety_valve_bounds_witness :
    (scrapeWalk "0xabc" Chain.ETHEREUM none none none
      (fun _ => ⟨"0xabc", Chain.ETHEREUM, 100, none,
        List.replicate 100 ⟨"t", "c"⟩, some "k", true⟩) 1 none).2 =
      ScrapeEnd.limitReached ∧
    (scrapeWalk "0xabc" Chain.ETHEREUM none none none
      (fun _ => ⟨"0xabc", Chain.ETHEREUM, 100, none,
        List.replicate 100 ⟨"t", "c"⟩, some "k", true⟩) 1 none).1.pageCount
      = 1 ∧
    (scrapeWalk "0xabc" Chain.ETHEREUM none none none
      (fun _ => ⟨"0xabc", Chain.ETHEREUM, 100, none,
        List.replicate 100 ⟨"t", "c"⟩, some "k", true⟩) 1
      none).1.collectionTotal = none ∧
    (scrapeWalk "0xabc" Chain.ETHEREUM none none none
      (fun _ => ⟨"0xabc", Chain.ETHEREUM, 100, none,
        List.replicate 100 ⟨"t", "c"⟩, some "k", true⟩) 1
      none).1.lastHasMore = true ∧
    (scrapeWalk "0xabc" Chain.ETHEREUM none none none
      (fun _ => ⟨"0xabc", Chain.ETHEREUM, 100, none,
        List.replicate 100 ⟨"t", "c"⟩, some "k", true⟩) 1
      none).1.errorEmitted = false :=
  (C7_safety_valve_bounds (fun _ => ⟨[], none⟩) 100 200 "0xabc" none
    none none
    (fun _ => ⟨"0xabc", Chain.ETHEREUM, 100, none,
      List.replicate 100 ⟨"t", "c"⟩, some "k", true⟩) 1 none
    Chain.ETHEREUM).2.2 rfl rfl (by omega) (fun _ => by decide)
    (fun _ => rfl) (fun _ => by decide) (fun _ => rfl)

end NFTScraper
